import Mathlib

/-!
Verification of the RV-C tank monitor (src/tank-monitor-with-calibration.py).

The protocol core is embedded shallowly:
* CAN identifiers and echo identifiers are natural numbers (Python ints are
  unbounded; bus identifiers are 32-bit values).
* Frame payloads are lists of natural-number bytes; `List.getD i 0` models
  indexing into the fixed-size 8-byte CAN payload.
* Python float arithmetic of the percent computation is modelled exactly with
  rationals (`ℚ`).
* The GUI widget dictionary keyed by tank instance is modelled as the
  TankStateStore map; the `queue.Queue` handoff is modelled as a FIFO list.
-/

/-- Constant from the source: `TANK_STATUS_DGN = 0x19FFB7AF`. -/
def TANK_STATUS_DGN : ℕ := 0x19FFB7AF

/-- Constant from the source: `TANK_CALIBRATION_DGN = 0x19FFB6AF`. -/
def TANK_CALIBRATION_DGN : ℕ := 0x19FFB6AF

/-- Constant from the source: `GS_USB_NONE_ECHO_ID = 0xFFFFFFFF`. -/
def GS_USB_NONE_ECHO_ID : ℕ := 0xFFFFFFFF

/-- The extended-frame-format flag imported from `gs_usb.constants`
(the standard SocketCAN value, bit 31). -/
def CAN_EFF_FLAG : ℕ := 0x80000000

/-- Module-level flag from the source, line 28: `debug = False`. -/
def debug : Bool := false

/-- A raw frame as read from the adapter (`GsUsbFrame`): `can_id`,
`data` and `echo_id`. -/
structure RawFrame where
  identifier : ℕ
  payload : List ℕ
  echoIdentifier : ℕ
deriving DecidableEq

/-- Python `can_id & ~CAN_EFF_FLAG` on a non-negative unbounded int:
clearing the bits of the mask is subtracting the common bits. -/
def maskEff (id : ℕ) : ℕ := id - (id &&& CAN_EFF_FLAG)

/-- The frame filter applied in `TankMonitor.monitor_can`, lines 215-216:
`(frame.can_id & ~CAN_EFF_FLAG) == TANK_STATUS_DGN and
 frame.echo_id == GS_USB_NONE_ECHO_ID`. -/
def accept (f : RawFrame) : Bool :=
  (maskEff f.identifier == TANK_STATUS_DGN) &&
    (f.echoIdentifier == GS_USB_NONE_ECHO_ID)

/-- A decoded tank reading: instance, percent level (exact rational),
absolute level, and the normalized resolution. -/
structure TankReading where
  «instance» : ℕ
  relativeLevelPercent : ℚ
  absoluteLevel : ℕ
  resolution : ℕ
deriving DecidableEq

/-- Decode failure: the instance byte addresses a tank the monitor
does not track (`instance in self.tanks` fails). -/
inductive DecodeError where
  | unknownInstance
deriving DecidableEq

/-- Line 231: `resolution = frame.data[2] if frame.data[2] > 0 else 1`. -/
def normRes (b : ℕ) : ℕ := if b > 0 then b else 1

/-- Lines 235-239: the percent computation, including the `debug` branch.
`(14 / resolution) * 100` when the flag is set, else
`(relative_level / resolution) * 100`. -/
def levelPercent (dbg : Bool) (rawRel resByte : ℕ) : ℚ :=
  if dbg then ((14 : ℚ) / (normRes resByte : ℕ)) * 100
  else ((rawRel : ℚ) / (normRes resByte : ℕ)) * 100

/-- The decoder of `TankMonitor.process_messages`, lines 229-242:
byte 0 is the instance, byte 1 the raw relative level, byte 2 the
resolution (0 normalized to 1), bytes 3-4 the little-endian absolute
level.  An instance byte outside the tracked set {0,1,2,3} (the keys of
`self.tanks`) is the `UnknownInstance` outcome. -/
def decode (p : List ℕ) : Except DecodeError TankReading :=
  if p.getD 0 0 ∈ ([0, 1, 2, 3] : List ℕ) then
    .ok ⟨p.getD 0 0,
         levelPercent debug (p.getD 1 0) (p.getD 2 0),
         p.getD 3 0 + 256 * p.getD 4 0,
         normRes (p.getD 2 0)⟩
  else
    .error .unknownInstance

/-- Decode of a whole frame operates on its payload bytes. -/
def decodeFrame (f : RawFrame) : Except DecodeError TankReading :=
  decode f.payload

/-- The per-instance latest-reading store (the `self.tanks` dictionary of
widgets, each widget holding only its latest displayed reading). -/
def TankStateStore : Type := ℕ → Option TankReading

/-- `update` overwrites the entry for the reading's instance
(`self.tanks[instance].update_level(...)` replaces the displayed state). -/
def TankStateStore.update (s : TankStateStore) (r : TankReading) : TankStateStore :=
  fun i => if i = r.«instance» then some r else s i

/-- `get` retrieves the latest reading stored for an instance. -/
def TankStateStore.get (s : TankStateStore) (i : ℕ) : Option TankReading := s i

/-- The store before any reading arrived. -/
def emptyStore : TankStateStore := fun _ => none

/-- One consumer step for one drained frame payload, lines 229-242:
decode, and update the store only when the instance is tracked. -/
def processFrame (s : TankStateStore) (p : List ℕ) : TankStateStore :=
  match decode p with
  | .ok r => s.update r
  | .error _ => s

/-- `self.message_queue.put(frame)`: FIFO enqueue at the back. -/
def push (q : List RawFrame) (f : RawFrame) : List RawFrame := q ++ [f]

/-- The drain loop of lines 226-227: `while not empty: get_nowait()`,
repeatedly removing the front element until the queue is empty. -/
def drainLoop : List RawFrame → List RawFrame
  | [] => []
  | f :: rest => f :: drainLoop rest

/-- `drainAll` returns the drained sequence and the queue left behind. -/
def drainAll (q : List RawFrame) : List RawFrame × List RawFrame :=
  (drainLoop q, [])

/-- Operator input to calibration: tank selection index and level 0-100. -/
structure CalibrationCommand where
  «instance» : ℕ
  relativeLevelPercent : ℕ
deriving DecidableEq

/-- An outbound frame handed to `dev.send`. -/
structure OutboundFrame where
  identifier : ℕ
  payload : List ℕ
deriving DecidableEq

/-- `CalibrationTab.send_calibration`, lines 127-139: 7 payload bytes
`[instance, level, 0xFF, 0xFF, 0xFF, 0xFF, 0xFF]` and identifier
`TANK_CALIBRATION_DGN | CAN_EFF_FLAG`. -/
def encodeCalibration (c : CalibrationCommand) : OutboundFrame :=
  { identifier := TANK_CALIBRATION_DGN ||| CAN_EFF_FLAG
    payload := [c.«instance», c.relativeLevelPercent, 0xFF, 0xFF, 0xFF, 0xFF, 0xFF] }

/-- Why the reader loop stopped. -/
inductive StopReason where
  | deviceNotFound
  | bitrateError
deriving DecidableEq

/-- Reader-loop state: receiving frames, or terminally stopped. -/
inductive LoopState where
  | receiving
  | stopped (e : StopReason)
deriving DecidableEq

/-- The adapter responses that decide configuration in
`TankMonitor.monitor_can`, lines 198-210: whether `GsUsb.scan()` found a
device and whether `dev.set_bitrate(250000)` succeeded. -/
structure Adapter where
  scanFound : Bool
  bitrateOk : Bool
deriving DecidableEq

/-- Configuration phase of `monitor_can`, lines 198-210: no device or a
failed bitrate both `return` before `dev.start`. -/
def readerConfigure (a : Adapter) : LoopState :=
  if a.scanFound = false then .stopped .deviceNotFound
  else if a.bitrateOk = false then .stopped .bitrateError
  else .receiving

/-- `dev.start(GS_CAN_MODE_NORMAL)` is reached exactly when a device was
found and the bitrate was set. -/
def adapterStarted (a : Adapter) : Bool := a.scanFound && a.bitrateOk

/-- One iteration of the receive loop, lines 212-217: a stopped loop does
nothing; a receiving loop pushes an accepted frame to the queue. -/
def readerStep (st : LoopState) (q : List RawFrame) (r : Option RawFrame) :
    LoopState × List RawFrame :=
  match st, r with
  | .receiving, some f => (.receiving, if accept f then push q f else q)
  | .receiving, none => (.receiving, q)
  | .stopped e, _ => (.stopped e, q)

/-- A run of the reader loop over a sequence of receive results, starting
from configuration with an empty queue. -/
def readerRun (a : Adapter) (reads : List (Option RawFrame)) :
    LoopState × List RawFrame :=
  reads.foldl (fun s r => readerStep s.1 s.2 r) (readerConfigure a, [])

/-! ## Helper lemmas -/

/-- The source's `d if d > 0 else 1` normalization is `max d 1`. -/
lemma normRes_eq_max (b : ℕ) : normRes b = max b 1 := by
  unfold normRes
  split <;> omega

/-- Evaluation of the decoder on the example status payload. -/
lemma decode_fifty_one : decode [0, 50, 1, 0, 0, 0, 0] = .ok ⟨0, 5000, 0, 1⟩ := by
  norm_num [decode, levelPercent, normRes, debug]

/-- The drain loop returns the queued frames unchanged and in order. -/
lemma drainLoop_eq (q : List RawFrame) : drainLoop q = q := by
  induction q with
  | nil => rfl
  | cons f t ih => simp [drainLoop, ih]

/-- Folding `push` over a list appends it to the queue in order. -/
lemma foldl_push (q fs : List RawFrame) : fs.foldl push q = q ++ fs := by
  induction fs generalizing q with
  | nil => simp
  | cons f t ih => simp [push, ih]

/-- A stopped reader loop stays stopped and pushes nothing. -/
lemma readerRun_stopped (e : StopReason) (q : List RawFrame)
    (reads : List (Option RawFrame)) :
    reads.foldl (fun s r => readerStep s.1 s.2 r) (.stopped e, q) = (.stopped e, q) := by
  induction reads with
  | nil => rfl
  | cons r t ih =>
    have hs : readerStep (.stopped e) q r = (.stopped e, q) := by
      cases r <;> rfl
    simpa [List.foldl, hs] using ih

/-! ## Claims -/

/-- C1: for every frame whose masked identifier is the tank-status
identifier, whose echo identifier is the no-echo sentinel and whose
instance byte is in {0,1,2,3}, decode succeeds and the percent level is
rawRelativeLevel × 100 / max(resolutionByte, 1). -/
theorem decode_percent_formula (f : RawFrame)
    (_hid : maskEff f.identifier = TANK_STATUS_DGN)
    (_hecho : f.echoIdentifier = GS_USB_NONE_ECHO_ID)
    (hinst : f.payload.getD 0 0 ∈ ([0, 1, 2, 3] : List ℕ)) :
    ∃ r, decodeFrame f = .ok r ∧
      r.relativeLevelPercent =
        (f.payload.getD 1 0 : ℚ) * 100 / ((max (f.payload.getD 2 0) 1 : ℕ) : ℚ) := by
  have hdec : decodeFrame f = .ok
      ⟨f.payload.getD 0 0,
       levelPercent debug (f.payload.getD 1 0) (f.payload.getD 2 0),
       f.payload.getD 3 0 + 256 * f.payload.getD 4 0,
       normRes (f.payload.getD 2 0)⟩ := by
    unfold decodeFrame decode
    rw [if_pos hinst]
  refine ⟨_, hdec, ?_⟩
  show levelPercent debug (f.payload.getD 1 0) (f.payload.getD 2 0) = _
  rw [levelPercent, normRes_eq_max]
  simp only [debug, Bool.false_eq_true, if_false]
  rw [div_mul_eq_mul_div]

/-- C1 witness: a concrete accepted status frame. -/
theorem decode_percent_formula_witness :
    ∃ r, decodeFrame ⟨0x19FFB7AF, [0, 50, 1, 0, 0, 0, 0], 0xFFFFFFFF⟩ = .ok r ∧
      r.relativeLevelPercent =
        ((List.getD [0, 50, 1, 0, 0, 0, 0] 1 0 : ℕ) : ℚ) * 100 /
          ((max (List.getD [0, 50, 1, 0, 0, 0, 0] 2 0) 1 : ℕ) : ℚ) :=
  decode_percent_formula ⟨0x19FFB7AF, [0, 50, 1, 0, 0, 0, 0], 0xFFFFFFFF⟩
    (by decide) rfl (by decide)

/-- C2: a payload whose resolution byte is 0 decodes exactly like the same
payload with resolution byte 1 — the division is carried out with divisor 1. -/
theorem decode_resolution_zero (p : List ℕ) (h : p.getD 2 0 = 0) :
    decode p = decode (p.set 2 1) := by
  obtain _ | ⟨a, _ | ⟨b, _ | ⟨c, t⟩⟩⟩ := p
  · rfl
  · rfl
  · rfl
  · simp only [List.getD, List.get?, Option.getD] at h
    subst h
    rfl

/-- C2 witness: a concrete payload with resolution byte 0. -/
theorem decode_resolution_zero_witness :
    decode [0, 50, 0, 0, 0, 0, 0] = decode (List.set [0, 50, 0, 0, 0, 0, 0] 2 1) :=
  decode_resolution_zero [0, 50, 0, 0, 0, 0, 0] rfl

/-- C3: the frame filter accepts exactly the frames whose identifier with
the extended-format flag cleared equals 0x19FFB7AF and whose echo
identifier equals 0xFFFFFFFF; any frame with a different echo identifier
is rejected regardless of its identifier. -/
theorem frameFilter_accept_iff (f : RawFrame) :
    (accept f = true ↔
      (f.identifier - (f.identifier &&& 0x80000000) = 0x19FFB7AF ∧
        f.echoIdentifier = 0xFFFFFFFF)) ∧
    (f.echoIdentifier ≠ 0xFFFFFFFF → accept f = false) := by
  constructor
  · simp [accept, maskEff, TANK_STATUS_DGN, GS_USB_NONE_ECHO_ID, CAN_EFF_FLAG]
  · intro h
    have he : (f.echoIdentifier == GS_USB_NONE_ECHO_ID) = false := by
      simp [GS_USB_NONE_ECHO_ID]
      exact h
    simp [accept, he]

/-- C3 witness: a frame carrying the tank-status identifier but a real echo
identifier is rejected. -/
theorem frameFilter_accept_iff_witness :
    accept ⟨0x19FFB7AF, [0, 50, 1, 0, 0, 0, 0], 5⟩ = false :=
  (frameFilter_accept_iff ⟨0x19FFB7AF, [0, 50, 1, 0, 0, 0, 0], 5⟩).2 (by decide)

/-- C4 counterexample: decode on payload [0,50,1,0,0,0,0] does not yield a
reading with relativeLevelPercent = 50 — the computed percent is
(50 / 1) × 100 = 5000. -/
theorem decode_example_claim_false :
    ¬ ∃ r, decode [0, 50, 1, 0, 0, 0, 0] = .ok r ∧
        r.«instance» = 0 ∧ r.relativeLevelPercent = 50 ∧ r.absoluteLevel = 0 := by
  rintro ⟨r, hr, -, hp, -⟩
  rw [decode_fifty_one] at hr
  injection hr with hr
  subst hr
  norm_num at hp

/-- C4 amended: decode on payload [0,50,1,0,0,0,0] yields instance 0
(FreshWater), relativeLevelPercent = 5000, absoluteLevel = 0 (and the
normalized resolution 1). -/
theorem decode_example_amended :
    decode [0, 50, 1, 0, 0, 0, 0] = .ok ⟨0, 5000, 0, 1⟩ :=
  decode_fifty_one

/-- C5: encodeCalibration emits the 7-byte payload
[instance, level, 0xFF, 0xFF, 0xFF, 0xFF, 0xFF] under the calibration
identifier with the extended-format flag set. -/
theorem encodeCalibration_spec (c : CalibrationCommand)
    (_h1 : c.«instance» ∈ ([0, 1, 2, 3] : List ℕ))
    (_h2 : c.relativeLevelPercent ≤ 100) :
    (encodeCalibration c).payload =
      [c.«instance», c.relativeLevelPercent, 0xFF, 0xFF, 0xFF, 0xFF, 0xFF] ∧
    (encodeCalibration c).identifier = 0x19FFB6AF ||| 0x80000000 :=
  ⟨rfl, rfl⟩

/-- C5 witness: the GreyWaste (2) command at 75 %. -/
theorem encodeCalibration_spec_witness :
    (encodeCalibration ⟨2, 75⟩).payload = [2, 75, 0xFF, 0xFF, 0xFF, 0xFF, 0xFF] ∧
    (encodeCalibration ⟨2, 75⟩).identifier = 0x19FFB6AF ||| 0x80000000 :=
  encodeCalibration_spec ⟨2, 75⟩ (by decide) (by decide)

/-- C6: an instance byte outside {0,1,2,3} decodes to UnknownInstance and
processing such a frame leaves every entry of the store unchanged. -/
theorem decode_unknown_instance (p : List ℕ) (s : TankStateStore)
    (h : p.getD 0 0 ∉ ([0, 1, 2, 3] : List ℕ)) :
    decode p = .error .unknownInstance ∧
      ∀ i, (processFrame s p).get i = s.get i := by
  have hd : decode p = .error .unknownInstance := by
    unfold decode
    rw [if_neg h]
  refine ⟨hd, fun i => ?_⟩
  unfold processFrame
  rw [hd]

/-- C6 witness: instance byte 9. -/
theorem decode_unknown_instance_witness :
    decode [9, 50, 1, 0, 0, 0, 0] = .error .unknownInstance ∧
      (processFrame emptyStore [9, 50, 1, 0, 0, 0, 0]).get 0 = emptyStore.get 0 :=
  ⟨(decode_unknown_instance [9, 50, 1, 0, 0, 0, 0] emptyStore (by decide)).1,
   (decode_unknown_instance [9, 50, 1, 0, 0, 0, 0] emptyStore (by decide)).2 0⟩

/-- C7: draining the empty queue yields the empty sequence, and draining
after N pushes yields exactly those N frames in push order, leaving the
queue empty. -/
theorem drainAll_fifo :
    drainAll [] = ([], []) ∧
      ∀ fs : List RawFrame, drainAll (fs.foldl push []) = (fs, []) := by
  refine ⟨rfl, fun fs => ?_⟩
  unfold drainAll
  rw [foldl_push, drainLoop_eq]
  simp

/-- C8: two consecutive updates for the same instance leave exactly the
later reading retrievable; the double update equals the single later one. -/
theorem store_last_write_wins (s : TankStateStore) (r1 r2 : TankReading)
    (h : r1.«instance» = r2.«instance») :
    ((s.update r1).update r2).get r2.«instance» = some r2 ∧
      (s.update r1).update r2 = s.update r2 := by
  constructor
  · simp [TankStateStore.get, TankStateStore.update]
  · funext i
    by_cases hi : i = r2.«instance»
    · simp [TankStateStore.update, hi]
    · have hi1 : i ≠ r1.«instance» := by rw [h]; exact hi
      simp [TankStateStore.update, hi, hi1]

/-- C8 witness: two readings for instance 0. -/
theorem store_last_write_wins_witness :
    ((emptyStore.update ⟨0, 10, 0, 1⟩).update ⟨0, 20, 0, 1⟩).get
        (TankReading.«instance» ⟨0, 20, 0, 1⟩) = some ⟨0, 20, 0, 1⟩ :=
  (store_last_write_wins emptyStore ⟨0, 10, 0, 1⟩ ⟨0, 20, 0, 1⟩ rfl).1

/-- C9: when a device is found but setting the bitrate fails, configuration
ends in the terminal Stopped(BitrateError) state, the adapter is never
started in receive mode, and no run of the loop ever pushes a frame. -/
theorem bitrate_failure_terminal (a : Adapter)
    (h1 : a.scanFound = true) (h2 : a.bitrateOk = false) :
    readerConfigure a = .stopped .bitrateError ∧
      adapterStarted a = false ∧
      ∀ reads, readerRun a reads = (.stopped .bitrateError, []) := by
  have hc : readerConfigure a = .stopped .bitrateError := by
    simp [readerConfigure, h1, h2]
  refine ⟨hc, by simp [adapterStarted, h2], fun reads => ?_⟩
  unfold readerRun
  rw [hc]
  exact readerRun_stopped _ _ _

/-- C9 witness: a concrete adapter with a failed bitrate and an offered
frame that is never pushed. -/
theorem bitrate_failure_terminal_witness :
    readerConfigure ⟨true, false⟩ = .stopped .bitrateError ∧
      adapterStarted ⟨true, false⟩ = false ∧
      readerRun ⟨true, false⟩
          [some ⟨0x19FFB7AF, [0, 50, 1, 0, 0, 0, 0], 0xFFFFFFFF⟩] =
        (.stopped .bitrateError, []) :=
  ⟨(bitrate_failure_terminal ⟨true, false⟩ rfl rfl).1,
   (bitrate_failure_terminal ⟨true, false⟩ rfl rfl).2.1,
   (bitrate_failure_terminal ⟨true, false⟩ rfl rfl).2.2 _⟩

/-- C10: the default flag is false; with the flag true the percent equals
(14 / resolution) × 100 for every frame and is independent of payload
byte 1; with the flag false it does depend on byte 1. -/
theorem debug_flag_independence :
    debug = false ∧
      (∀ p q : List ℕ, p.getD 2 0 = q.getD 2 0 →
        levelPercent true (p.getD 1 0) (p.getD 2 0) =
          levelPercent true (q.getD 1 0) (q.getD 2 0)) ∧
      (∀ rawRel resByte : ℕ,
        levelPercent true rawRel resByte = (14 / ((normRes resByte : ℕ) : ℚ)) * 100) ∧
      (∃ p q : List ℕ, p.getD 2 0 = q.getD 2 0 ∧ p.getD 1 0 ≠ q.getD 1 0 ∧
        levelPercent false (p.getD 1 0) (p.getD 2 0) ≠
          levelPercent false (q.getD 1 0) (q.getD 2 0)) := by
  refine ⟨rfl, ?_, ?_, ?_⟩
  · intro p q h
    unfold levelPercent
    rw [h]
    exact rfl
  · intro rawRel resByte
    simp [levelPercent]
  · refine ⟨[0, 0, 1], [0, 1, 1], rfl, by decide, ?_⟩
    norm_num [levelPercent, normRes]

/-- C10 witness: two payloads agreeing on the resolution byte but
differing in byte 1 display the same percent under the flag. -/
theorem debug_flag_independence_witness :
    levelPercent true (List.getD [0, 3, 7] 1 0) (List.getD [0, 3, 7] 2 0) =
      levelPercent true (List.getD [0, 8, 7] 1 0) (List.getD [0, 8, 7] 2 0) :=
  debug_flag_independence.2.1 [0, 3, 7] [0, 8, 7] rfl
